import Mathlib

/-!
Shallow embedding of the claude-notify supervisor (src/bin/claude-notify.js).

The program wraps an interactive subprocess, classifies its output chunks by
the presence of the busy-UI substring, drives a four-state activity machine
(IDLE, WORKING, WAITING, NOTIFIED), arms a single cancellable delayed
action when entering WAITING from WORKING, and on expiry evaluates an
eligibility predicate before sending one Slack alert per idle episode.

The embedding models the three event sources of the process (subprocess
output, local stdin batches, inbound Slack webhook requests) together with
timer expiry as an explicit event.  JavaScript setTimeout handles are
modelled by fresh numeric identifiers drawn from a counter in the state:
clearTimeout guarantees a cancelled callback never runs, which the model
expresses by guarding a timerFire event on the identifier still being the
pending one (identifiers are never reused).  All side effects that the
claims observe are recorded in the state: chunks pushed to the output
buffer, bytes written to the subprocess, and alerts posted to Slack.
-/

namespace ClaudeNotify

/-- List-level test that the second list occurs at the head of the first;
used to embed JavaScript substring search over code points. -/
def listStartsWith : List Char → List Char → Bool
  | _, [] => true
  | [], _ :: _ => false
  | c :: s, p :: ps => c = p && listStartsWith s ps

/-- Containment of the pattern anywhere in the list, leftmost search;
embeds JavaScript String.prototype.includes. -/
def listContainsSub (p : List Char) : List Char → Bool
  | [] => p.isEmpty
  | c :: rest => listStartsWith (c :: rest) p || listContainsSub p rest

/-- String wrapper for substring containment (JS data.includes(sub)). -/
def strIncludes (s : String) (sub : String) : Bool :=
  listContainsSub sub.data s.data

/-- Fuelled splitter on a non-empty separator, leftmost non-overlapping
occurrences, embedding JavaScript String.prototype.split(sep).  The fuel is
always instantiated with the length of the input plus one, which suffices
because every recursive call consumes at least one character. -/
def splitOnFuel (sep : List Char) : Nat → List Char → List Char → List (List Char)
  | 0, s, acc => [acc.reverse ++ s]
  | n + 1, s, acc =>
    match s with
    | [] => [acc.reverse]
    | c :: rest =>
      if sep ≠ [] ∧ listStartsWith (c :: rest) sep = true then
        acc.reverse :: splitOnFuel sep n (List.drop sep.length (c :: rest)) []
      else
        splitOnFuel sep n rest (c :: acc)

/-- JS fullBuffer.split(sep) for a fixed non-empty separator string. -/
def strSplitOn (s : String) (sep : String) : List String :=
  (splitOnFuel sep.data (s.data.length + 1) s.data []).map List.asString

/-- JS String.prototype.trim (whitespace from both ends). -/
def strTrim (s : String) : String :=
  (((s.data.dropWhile Char.isWhitespace).reverse.dropWhile Char.isWhitespace).reverse).asString

/-- JS String.prototype.substring(0, n). -/
def strTake (s : String) (n : Nat) : String :=
  (s.data.take n).asString

/-- Recognizer for the parameter bytes of a colour escape sequence:
the character class [0-9;] of the regex at line 506. -/
def isAnsiParamChar (c : Char) : Bool :=
  c.isDigit || c = ';'

/-- After an ESC character, try to consume "[" [0-9;]* "m" and return the
remainder; none when the shape does not match. -/
def matchColorEscape : List Char → Option (List Char)
  | '[' :: rest =>
    match rest.dropWhile isAnsiParamChar with
    | 'm' :: tail => some tail
    | _ => none
  | _ => none

/-- Fuelled removal of ANSI colour escape sequences, embedding the global
regex replace cleanedTask.replace of ESC [ params m with the empty string
(line 506).  Fuel is instantiated with length plus one. -/
def stripAnsiFuel : Nat → List Char → List Char
  | 0, s => s
  | _ + 1, [] => []
  | n + 1, c :: rest =>
    if c = '\x1b' then
      match matchColorEscape rest with
      | some tail => stripAnsiFuel n tail
      | none => c :: stripAnsiFuel n rest
    else
      c :: stripAnsiFuel n rest

/-- String wrapper for ANSI escape stripping. -/
def stripAnsi (s : String) : String :=
  (stripAnsiFuel (s.data.length + 1) s.data).asString

/-- The busy-UI marker tested on every output chunk
(data.includes at line 368). -/
def INTERRUPT_MARKER : String := "to interrupt)"

/-- Output classifier: busy marker present in the chunk. -/
def containsInterruptText (data : String) : Bool :=
  strIncludes data INTERRUPT_MARKER

/-- The literal separator of fullBuffer.split at line 502 of the source.
The source file stores the two code points U+00E2 U+2014 (a mojibake
rendering of the intended bullet glyph), not the single bullet character. -/
def TASK_BOUNDARY : String := "â—"

/-- The footer phrase tested per line at line 514. -/
def FOOTER_PHRASE : String := "esc to interrupt"

/-- Task extractor: the pure computation of sendSlackNotification,
lines 500-520 of the source.  Joins the buffered chunks, splits on the
task-boundary separator keeping the last piece (whole buffer when no
separator occurs), strips colour escapes, drops the first line whose
trimmed text contains the footer phrase together with everything after it,
trims, and caps at 1000 characters. -/
def extractTask (chunks : List String) : String :=
  let fullBuffer := chunks.foldl (· ++ ·) ""
  let tasks := strSplitOn fullBuffer TASK_BOUNDARY
  let lastTask := if tasks.length > 1 then tasks.getD (tasks.length - 1) "" else fullBuffer
  let cleanedTask := stripAnsi lastTask
  let lines := strSplitOn cleanedTask "\n"
  let filteredLines := lines.takeWhile (fun line => !(strIncludes (strTrim line) FOOTER_PHRASE))
  strTake (strTrim (String.intercalate "\n" filteredLines)) 1000

/-- The four activity states of the machine (line 95 of the source). -/
inductive CState
  | IDLE
  | WORKING
  | WAITING
  | NOTIFIED
deriving DecidableEq, Repr

/-- Startup configuration derived from CLI options and environment
(lines 30-34): the notifications-disabled switch, the Slack webhook URL and
the ngrok domain, each either a non-empty string or absent (JS falsiness of
the corresponding variable). -/
structure Config where
  notificationsDisabled : Bool
  slackWebhookUrl : Option String
  ngrokDomain : Option String
deriving DecidableEq, Repr

/-- The mutable session state of the process (lines 91-96), extended with
the observable effect logs: claudeWrites records every claude.write call,
alerts records every notification posted to the Slack webhook.  The
JavaScript setTimeout handle is modelled by a numeric identifier; the
counter nextTimerId supplies a fresh identifier per armed timer, so a
cancelled timer's identifier is never pending again. -/
structure SessionState where
  userHasEngaged : Bool
  notificationSent : Bool
  isClaudeWorking : Bool
  notificationTimer : Option Nat
  nextTimerId : Nat
  currentState : CState
  claudeDataChunks : List String
  claudeWrites : List String
  alerts : List String
deriving DecidableEq, Repr

/-- Initial state (lines 91-96): all flags false, no timer, IDLE, empty
buffer. -/
def initState : SessionState :=
  { userHasEngaged := false
    notificationSent := false
    isClaudeWorking := false
    notificationTimer := none
    nextTimerId := 0
    currentState := CState.IDLE
    claudeDataChunks := []
    claudeWrites := []
    alerts := [] }

/-- clearAllTimers (lines 206-212): clearTimeout on the pending handle and
null the slot; a no-op when no timer is pending. -/
def clearAllTimers (s : SessionState) : SessionState :=
  { s with notificationTimer := none }

/-- transitionToWorking (lines 136-142). -/
def transitionToWorking (s : SessionState) : SessionState :=
  if s.currentState ≠ CState.WORKING then
    { clearAllTimers { s with isClaudeWorking := true } with currentState := CState.WORKING }
  else s

/-- shouldStartNotificationTimer's decision (line 199): in WAITING with no
timer pending. -/
def shouldStartNotificationTimer (s : SessionState) : Bool :=
  decide (s.currentState = CState.WAITING) && s.notificationTimer.isNone

/-- shouldSendNotification's decision (line 176): engaged, not already
alerted, not busy, notifications enabled. -/
def shouldSendNotification (cfg : Config) (s : SessionState) : Bool :=
  s.userHasEngaged && !s.notificationSent && !s.isClaudeWorking && !cfg.notificationsDisabled

/-- getSkipReason (lines 183-189): names the first failing eligibility
condition, in source order. -/
def getSkipReason (cfg : Config) (s : SessionState) : String :=
  if !s.userHasEngaged then "user_not_engaged"
  else if s.notificationSent then "notification_already_sent"
  else if s.isClaudeWorking then "claude_still_working"
  else if cfg.notificationsDisabled then "notifications_disabled"
  else "unknown"

/-- sendSlackNotification (lines 482-587): returns without posting when
notifications are disabled or no webhook URL is set; otherwise posts one
alert whose task content is the extractor applied to the current buffer.
Delivery failures are swallowed, so a post attempt is recorded as an
alert. -/
def sendSlackNotification (cfg : Config) (s : SessionState) : SessionState :=
  if cfg.notificationsDisabled then s
  else if cfg.slackWebhookUrl.isNone then s
  else { s with alerts := s.alerts ++ [extractTask s.claudeDataChunks] }

/-- transitionToWaiting (lines 144-164): set not-working, enter WAITING,
and arm a fresh notification timer when the decision at line 150 allows. -/
def transitionToWaiting (s : SessionState) : SessionState :=
  if s.currentState ≠ CState.WAITING then
    let s1 := { s with isClaudeWorking := false, currentState := CState.WAITING }
    if shouldStartNotificationTimer s1 then
      { s1 with notificationTimer := some s1.nextTimerId, nextTimerId := s1.nextTimerId + 1 }
    else s1
  else s

/-- The body of the timer expiry callback (lines 152-161): null the timer
slot, then if eligible send the alert, set notificationSent and enter
NOTIFIED. -/
def fireNotificationTimer (cfg : Config) (s : SessionState) : SessionState :=
  let s1 := { s with notificationTimer := none }
  if shouldSendNotification cfg s1 then
    { sendSlackNotification cfg s1 with
        notificationSent := true
        currentState := CState.NOTIFIED }
  else s1

/-- claude.onData handler (lines 362-413): push the chunk onto the buffer,
classify it, and apply the priority-ordered transition rules. -/
def handleClaudeOutput (s0 : SessionState) (data : String) : SessionState :=
  let s := { s0 with claudeDataChunks := s0.claudeDataChunks ++ [data] }
  let busy := containsInterruptText data
  if busy = true ∧ s.currentState ≠ CState.WORKING then
    transitionToWorking s
  else if busy = false ∧ s.currentState = CState.WORKING then
    transitionToWaiting s
  else
    s

/-- process.stdin data handler (lines 419-468): forward the bytes to the
subprocess, cancel the pending timer, reset notificationSent, on a line
submission clear the buffer and mark engagement, and fall back from
NOTIFIED to WAITING. -/
def handleUserInput (s : SessionState) (data : String) : SessionState :=
  let s0 := { s with claudeWrites := s.claudeWrites ++ [data] }
  let isEnterKey := strIncludes data "\r" || strIncludes data "\n"
  let s1 := clearAllTimers s0
  let s2 := { s1 with notificationSent := false }
  let s3 := if isEnterKey then { s2 with claudeDataChunks := [] } else s2
  let s4 :=
    if isEnterKey && !s3.userHasEngaged then { s3 with userHasEngaged := true } else s3
  if s4.currentState = CState.NOTIFIED then { s4 with currentState := CState.WAITING } else s4

/-- A Slack event object as read by the webhook endpoint (line 242):
its type tag, optional text and optional bot identifier; the options model
JS truthiness of the fields. -/
structure SlackEvent where
  type : String
  text : Option String
  bot_id : Option String
deriving DecidableEq, Repr

/-- A webhook request body (lines 228-241): top-level type tag and the
optional nested event. -/
structure WebhookBody where
  type : String
  event : Option SlackEvent
deriving DecidableEq, Repr

/-- JS truthiness of an optional string field. -/
def truthyText : Option String → Bool
  | some t => !(t = "")
  | none => false

/-- The webhook endpoint's filter (lines 241-245): an event_callback body
holding a message event with non-empty text and no bot identifier. -/
def isUserMessage (b : WebhookBody) : Bool :=
  decide (b.type = "event_callback") &&
    (match b.event with
     | some ev => decide (ev.type = "message") && truthyText ev.text && !truthyText ev.bot_id
     | none => false)

/-- The POST /webhook handler's effect on session state (lines 228-270):
url_verification only answers the challenge; an event_callback carrying a
user message writes the text plus a newline to the subprocess, cancels the
timer, resets notificationSent, marks engagement, and falls back from
NOTIFIED to WAITING; every other body leaves the state untouched. -/
def handleWebhook (s : SessionState) (b : WebhookBody) : SessionState :=
  if b.type = "url_verification" then s
  else if b.type = "event_callback" then
    match b.event with
    | some ev =>
      if ev.type = "message" ∧ truthyText ev.text = true ∧ truthyText ev.bot_id = false then
        let txt := ev.text.getD ""
        let s0 := { s with claudeWrites := s.claudeWrites ++ [txt ++ "\n"] }
        let s1 := clearAllTimers s0
        let s2 := { s1 with notificationSent := false, userHasEngaged := true }
        if s2.currentState = CState.NOTIFIED then { s2 with currentState := CState.WAITING }
        else s2
      else s
    | none => s
  else s

/-- The serialized events of the process: an output chunk from the
subprocess, a local stdin batch, an inbound webhook request, and the expiry
of the setTimeout handle with the given identifier. -/
inductive Event
  | output (data : String)
  | input (data : String)
  | webhook (b : WebhookBody)
  | timerFire (id : Nat)
deriving DecidableEq, Repr

/-- One step of the event loop.  A timerFire takes effect only when the
identifier is still the pending one: clearTimeout guarantees a cancelled
callback never runs, and identifiers are never reused. -/
def step (cfg : Config) (s : SessionState) : Event → SessionState
  | Event.output data => handleClaudeOutput s data
  | Event.input data => handleUserInput s data
  | Event.webhook b => handleWebhook s b
  | Event.timerFire t =>
    if s.notificationTimer = some t then fireNotificationTimer cfg s else s

/-- Run a list of events from an arbitrary state. -/
def runFrom (cfg : Config) (s : SessionState) (es : List Event) : SessionState :=
  es.foldl (step cfg) s

/-- Run a list of events from the initial state. -/
def run (cfg : Config) (es : List Event) : SessionState :=
  runFrom cfg initState es

/-- Observable actions of process startup. -/
inductive Action
  | printError (msg : String)
  | exitProcess (code : Nat)
  | spawnClaude
deriving DecidableEq, Repr

/-- First line of the configuration-error message (line 116). -/
def CONFIG_ERROR_MESSAGE : String :=
  "Error: Both SLACK_WEBHOOK_URL and NGROK_DOMAIN are required when notifications are enabled."

/-- The action sequence of program startup.  The configuration check at
lines 114-121 runs at module top level, before startClaudeNotify (invoked
at line 629) ever reaches the pty.spawn call at line 335: a failing check
prints the explanatory message and calls process.exit(1), so the
subprocess is never spawned. -/
def startupActions (cfg : Config) : List Action :=
  if cfg.notificationsDisabled = false ∧
      (cfg.slackWebhookUrl = none ∨ cfg.ngrokDomain = none) then
    [Action.printError CONFIG_ERROR_MESSAGE, Action.exitProcess 1]
  else
    [Action.spawnClaude]

/-- A live configuration for concrete executions: notifications enabled
with both the webhook URL and the ngrok domain set. -/
def cfgLive : Config :=
  { notificationsDisabled := false
    slackWebhookUrl := some "https://hooks.slack.example/T0/B0/XYZ"
    ngrokDomain := some "demo.ngrok.app" }

/-- An engaged WAITING state whose timer 0 is pending: the state reached
by run cfgLive with one submitted line, one busy chunk and one idle
chunk. -/
def sAlertReady : SessionState :=
  { initState with
      userHasEngaged := true
      currentState := CState.WAITING
      notificationTimer := some 0
      nextTimerId := 1
      claudeWrites := ["hi\n"]
      claudeDataChunks := ["x (to interrupt)", "done"] }

/-- An execution whose first episode alerts and that then re-enters
WORKING: engage, busy chunk, idle chunk, expiry, busy chunk. -/
def epTracePre : List Event :=
  [Event.input "hi\n", Event.output "x (to interrupt)", Event.output "done",
   Event.timerFire 0, Event.output "y (to interrupt)"]

/-- The same execution extended with the idle chunk that starts a fresh
WAITING episode via a WORKING to WAITING edge. -/
def epTrace : List Event := epTracePre ++ [Event.output "done2"]

/-- A user-authored Slack message body as delivered by the bridge. -/
def bridgeMsg : WebhookBody :=
  { type := "event_callback"
    event := some { type := "message", text := some "hello", bot_id := none } }

/-- A bot-authored Slack message body (carries a bot identifier). -/
def botMsg : WebhookBody :=
  { type := "event_callback"
    event := some { type := "message", text := some "ping", bot_id := some "B123" } }

/-- An execution that ends in NOTIFIED: engage, busy chunk, idle chunk,
timer expiry. -/
def notifyTrace : List Event :=
  [Event.input "hi\n", Event.output "x (to interrupt)", Event.output "done",
   Event.timerFire 0]

/-- An execution that leaves timer 0 pending: engage, busy chunk, idle
chunk. -/
def armTrace : List Event :=
  [Event.input "hi\n", Event.output "x (to interrupt)", Event.output "done"]

/-- A configuration with notifications enabled but no webhook URL set. -/
def cfgNoWebhook : Config :=
  { notificationsDisabled := false
    slackWebhookUrl := none
    ngrokDomain := some "demo.ngrok.app" }

section Lemmas

variable (cfg : Config)

/-- Unrolling a run over a snoc of events. -/
lemma run_append (es : List Event) (e : Event) :
    run cfg (es ++ [e]) = step cfg (run cfg es) e := by
  simp [run, runFrom, List.foldl_append]

/-- Unrolling runFrom over a cons of events. -/
lemma runFrom_cons (s : SessionState) (e : Event) (es : List Event) :
    runFrom cfg s (e :: es) = runFrom cfg (step cfg s e) es := by
  simp [runFrom]

/-- A busy chunk seen outside WORKING: enter WORKING, cancelling the
timer. -/
lemma step_output_busy (s : SessionState) (c : String)
    (hb : containsInterruptText c = true) (hs : s.currentState ≠ CState.WORKING) :
    step cfg s (Event.output c) =
      { s with claudeDataChunks := s.claudeDataChunks ++ [c]
               isClaudeWorking := true
               notificationTimer := none
               currentState := CState.WORKING } := by
  simp [step, handleClaudeOutput, hb, hs, transitionToWorking, clearAllTimers]

/-- A busy chunk seen while already WORKING: only the buffer grows. -/
lemma step_output_busy_working (s : SessionState) (c : String)
    (hb : containsInterruptText c = true) (hs : s.currentState = CState.WORKING) :
    step cfg s (Event.output c) = { s with claudeDataChunks := s.claudeDataChunks ++ [c] } := by
  simp [step, handleClaudeOutput, hb, hs]

/-- An idle chunk seen in WORKING with no timer pending: enter WAITING and
arm a fresh timer. -/
lemma step_output_waiting_arm (s : SessionState) (c : String)
    (hb : containsInterruptText c = false) (hs : s.currentState = CState.WORKING)
    (ht : s.notificationTimer = none) :
    step cfg s (Event.output c) =
      { s with claudeDataChunks := s.claudeDataChunks ++ [c]
               isClaudeWorking := false
               currentState := CState.WAITING
               notificationTimer := some s.nextTimerId
               nextTimerId := s.nextTimerId + 1 } := by
  simp [step, handleClaudeOutput, hb, hs, transitionToWaiting,
    shouldStartNotificationTimer, ht]

/-- An idle chunk seen in WORKING with a timer already pending: enter
WAITING without arming. -/
lemma step_output_waiting_noarm (s : SessionState) (c : String) (u : Nat)
    (hb : containsInterruptText c = false) (hs : s.currentState = CState.WORKING)
    (ht : s.notificationTimer = some u) :
    step cfg s (Event.output c) =
      { s with claudeDataChunks := s.claudeDataChunks ++ [c]
               isClaudeWorking := false
               currentState := CState.WAITING } := by
  simp [step, handleClaudeOutput, hb, hs, transitionToWaiting,
    shouldStartNotificationTimer, ht]

/-- An idle chunk seen outside WORKING: only the buffer grows. -/
lemma step_output_nonbusy_other (s : SessionState) (c : String)
    (hb : containsInterruptText c = false) (hs : s.currentState ≠ CState.WORKING) :
    step cfg s (Event.output c) = { s with claudeDataChunks := s.claudeDataChunks ++ [c] } := by
  simp [step, handleClaudeOutput, hb, hs]

/-- Full characterization of a local stdin batch: bytes forwarded, timer
cancelled, notificationSent reset, buffer cleared and engagement set on a
line submission, NOTIFIED falls back to WAITING. -/
lemma step_input (s : SessionState) (d : String) :
    step cfg s (Event.input d) =
      { s with claudeWrites := s.claudeWrites ++ [d]
               notificationTimer := none
               notificationSent := false
               claudeDataChunks :=
                 if (strIncludes d "\r" || strIncludes d "\n") = true then []
                 else s.claudeDataChunks
               userHasEngaged := s.userHasEngaged || (strIncludes d "\r" || strIncludes d "\n")
               currentState :=
                 if s.currentState = CState.NOTIFIED then CState.WAITING
                 else s.currentState } := by
  cases hE : (strIncludes d "\r" || strIncludes d "\n") <;>
    cases hU : s.userHasEngaged <;>
      by_cases hS : s.currentState = CState.NOTIFIED <;>
        simp [step, handleUserInput, clearAllTimers, hE, hU, hS]

/-- Full characterization of a bridge-delivered user message: text plus a
newline forwarded, timer cancelled, notificationSent reset, engagement
set, NOTIFIED falls back to WAITING; the output buffer is untouched. -/
lemma step_webhook_message (s : SessionState) (b : WebhookBody) (ev : SlackEvent)
    (txt : String) (h1 : b.type = "event_callback") (h2 : b.event = some ev)
    (h3 : ev.type = "message") (h4 : ev.text = some txt) (h5 : txt ≠ "")
    (h6 : truthyText ev.bot_id = false) :
    step cfg s (Event.webhook b) =
      { s with claudeWrites := s.claudeWrites ++ [txt ++ "\n"]
               notificationTimer := none
               notificationSent := false
               userHasEngaged := true
               currentState :=
                 if s.currentState = CState.NOTIFIED then CState.WAITING
                 else s.currentState } := by
  have hurl : b.type ≠ "url_verification" := by rw [h1]; decide
  have htxt : truthyText (some txt) = true := by simp [truthyText, h5]
  by_cases hS : s.currentState = CState.NOTIFIED <;>
    simp [step, handleWebhook, hurl, h1, h2, h3, h4, htxt, h6, clearAllTimers, hS]

/-- A webhook body that is not a user message leaves the state
untouched. -/
lemma step_webhook_nonmessage (s : SessionState) (b : WebhookBody)
    (h : isUserMessage b = false) : step cfg s (Event.webhook b) = s := by
  by_cases hv : b.type = "url_verification"
  · simp [step, handleWebhook, hv]
  · by_cases hc : b.type = "event_callback"
    · cases hev : b.event with
      | none => simp [step, handleWebhook, hv, hc, hev]
      | some ev =>
        have hinner :
            ¬(ev.type = "message" ∧ truthyText ev.text = true ∧ truthyText ev.bot_id = false) := by
          intro ⟨ha, hb2, hc2⟩
          rw [isUserMessage, hev] at h
          simp [hc, ha, hb2, hc2] at h
        simp [step, handleWebhook, hv, hc, hev, hinner]
    · simp [step, handleWebhook, hv, hc]

/-- Expiry of an identifier that is not the pending timer has no effect:
the callback of a cancelled or already-fired setTimeout never runs. -/
lemma step_fire_nonpending (s : SessionState) (t : Nat)
    (h : s.notificationTimer ≠ some t) : step cfg s (Event.timerFire t) = s := by
  simp [step, h]

/-- Expiry of the pending timer when eligibility fails: the timer slot is
cleared and nothing else changes. -/
lemma step_fire_ineligible (s : SessionState) (t : Nat)
    (h : s.notificationTimer = some t) (he : shouldSendNotification cfg s = false) :
    step cfg s (Event.timerFire t) = { s with notificationTimer := none } := by
  have he' : shouldSendNotification cfg { s with notificationTimer := none } = false := he
  simp [step, h, fireNotificationTimer, he']

/-- Expiry of the pending timer when eligibility holds: the alert path runs
and the state enters NOTIFIED with notificationSent set. -/
lemma step_fire_eligible (s : SessionState) (t : Nat)
    (h : s.notificationTimer = some t) (he : shouldSendNotification cfg s = true) :
    step cfg s (Event.timerFire t) =
      { sendSlackNotification cfg { s with notificationTimer := none } with
          notificationSent := true
          currentState := CState.NOTIFIED } := by
  have he' : shouldSendNotification cfg { s with notificationTimer := none } = true := he
  simp [step, h, fireNotificationTimer, he']

/-- With a valid live configuration the Slack call posts exactly one
alert carrying the extractor's summary of the buffered chunks. -/
lemma sendSlack_valid (s : SessionState) (hd : cfg.notificationsDisabled = false)
    (hu : cfg.slackWebhookUrl ≠ none) :
    sendSlackNotification cfg s =
      { s with alerts := s.alerts ++ [extractTask s.claudeDataChunks] } := by
  have : cfg.slackWebhookUrl.isNone = false := by
    cases hc : cfg.slackWebhookUrl with
    | none => exact absurd hc hu
    | some v => simp
  simp [sendSlackNotification, hd, this]

/-- The Slack call changes no field but the alert log. -/
lemma sendSlack_frame (s : SessionState) :
    (sendSlackNotification cfg s).userHasEngaged = s.userHasEngaged ∧
    (sendSlackNotification cfg s).notificationSent = s.notificationSent ∧
    (sendSlackNotification cfg s).isClaudeWorking = s.isClaudeWorking ∧
    (sendSlackNotification cfg s).notificationTimer = s.notificationTimer ∧
    (sendSlackNotification cfg s).nextTimerId = s.nextTimerId ∧
    (sendSlackNotification cfg s).currentState = s.currentState ∧
    (sendSlackNotification cfg s).claudeDataChunks = s.claudeDataChunks ∧
    (sendSlackNotification cfg s).claudeWrites = s.claudeWrites := by
  unfold sendSlackNotification
  split_ifs <;> simp

/-- Destructing a body accepted by the webhook filter. -/
lemma isUserMessage_elim (b : WebhookBody) (h : isUserMessage b = true) :
    ∃ ev txt, b.type = "event_callback" ∧ b.event = some ev ∧ ev.type = "message" ∧
      ev.text = some txt ∧ txt ≠ "" ∧ truthyText ev.bot_id = false := by
  unfold isUserMessage at h
  cases hev : b.event with
  | none => rw [hev] at h; simp at h
  | some ev =>
    rw [hev] at h
    simp only [Bool.and_eq_true, decide_eq_true_eq, Bool.not_eq_true'] at h
    obtain ⟨hc, ⟨⟨ht, hx⟩, hbid⟩⟩ := h
    cases htx : ev.text with
    | none => rw [htx] at hx; simp [truthyText] at hx
    | some txt =>
      rw [htx] at hx
      simp only [truthyText, Bool.not_eq_true'] at hx
      exact ⟨ev, txt, hc, rfl, ht, htx, by simpa using hx, hbid⟩

/-- How a timer can be pending after a step: it was already pending, or
this step is the idle chunk that moved WORKING to WAITING and armed the
fresh identifier. -/
lemma step_timer_some (s : SessionState) (e : Event) (t : Nat)
    (h : (step cfg s e).notificationTimer = some t) :
    s.notificationTimer = some t ∨
    (∃ c, e = Event.output c ∧ containsInterruptText c = false ∧
      s.notificationTimer = none ∧ s.currentState = CState.WORKING ∧
      t = s.nextTimerId ∧
      step cfg s e =
        { s with claudeDataChunks := s.claudeDataChunks ++ [c]
                 isClaudeWorking := false
                 currentState := CState.WAITING
                 notificationTimer := some s.nextTimerId
                 nextTimerId := s.nextTimerId + 1 }) := by
  cases e with
  | output c =>
    by_cases hb : containsInterruptText c = true
    · by_cases hs : s.currentState = CState.WORKING
      · rw [step_output_busy_working cfg s c hb hs] at h
        exact Or.inl h
      · rw [step_output_busy cfg s c hb hs] at h
        simp at h
    · rw [Bool.not_eq_true] at hb
      by_cases hs : s.currentState = CState.WORKING
      · by_cases ht : s.notificationTimer = none
        · have harm := step_output_waiting_arm cfg s c hb hs ht
          rw [harm] at h
          simp only [Option.some.injEq] at h
          exact Or.inr ⟨c, rfl, hb, ht, hs, h.symm, harm⟩
        · obtain ⟨u, hu⟩ := Option.ne_none_iff_exists'.mp ht
          rw [step_output_waiting_noarm cfg s c u hb hs hu] at h
          simp only at h
          exact Or.inl h
      · rw [step_output_nonbusy_other cfg s c hb hs] at h
        exact Or.inl h
  | input d =>
    rw [step_input cfg s d] at h
    simp at h
  | webhook b =>
    by_cases hm : isUserMessage b = true
    · obtain ⟨ev, txt, h1, h2, h3, h4, h5, h6⟩ := isUserMessage_elim b hm
      rw [step_webhook_message cfg s b ev txt h1 h2 h3 h4 h5 h6] at h
      simp at h
    · rw [Bool.not_eq_true] at hm
      rw [step_webhook_nonmessage cfg s b hm] at h
      exact Or.inl h
  | timerFire u =>
    by_cases hp : s.notificationTimer = some u
    · by_cases he : shouldSendNotification cfg s = true
      · rw [step_fire_eligible cfg s u hp he] at h
        have := (sendSlack_frame cfg { s with notificationTimer := none }).2.2.2.1
        simp only at h
        rw [this] at h
        simp at h
      · rw [Bool.not_eq_true] at he
        rw [step_fire_ineligible cfg s u hp he] at h
        simp at h
    · rw [step_fire_nonpending cfg s u hp] at h
      exact Or.inl h

/-- How a step can end in NOTIFIED: it already was, or the step is the
expiry of the pending timer. -/
lemma step_notified (s : SessionState) (e : Event)
    (h : (step cfg s e).currentState = CState.NOTIFIED) :
    s.currentState = CState.NOTIFIED ∨
    (∃ t, e = Event.timerFire t ∧ s.notificationTimer = some t ∧
      shouldSendNotification cfg s = true) := by
  cases e with
  | output c =>
    by_cases hb : containsInterruptText c = true
    · by_cases hs : s.currentState = CState.WORKING
      · rw [step_output_busy_working cfg s c hb hs] at h
        exact Or.inl h
      · rw [step_output_busy cfg s c hb hs] at h
        simp at h
    · rw [Bool.not_eq_true] at hb
      by_cases hs : s.currentState = CState.WORKING
      · cases ht : s.notificationTimer with
        | none =>
          rw [step_output_waiting_arm cfg s c hb hs ht] at h
          simp at h
        | some u =>
          rw [step_output_waiting_noarm cfg s c u hb hs ht] at h
          simp at h
      · rw [step_output_nonbusy_other cfg s c hb hs] at h
        exact Or.inl h
  | input d =>
    rw [step_input cfg s d] at h
    by_cases hS : s.currentState = CState.NOTIFIED
    · simp [hS] at h
    · simp only [if_neg hS] at h
      exact Or.inl h
  | webhook b =>
    by_cases hm : isUserMessage b = true
    · obtain ⟨ev, txt, h1, h2, h3, h4, h5, h6⟩ := isUserMessage_elim b hm
      rw [step_webhook_message cfg s b ev txt h1 h2 h3 h4 h5 h6] at h
      by_cases hS : s.currentState = CState.NOTIFIED
      · simp [hS] at h
      · simp only [if_neg hS] at h
        exact Or.inl h
    · rw [Bool.not_eq_true] at hm
      rw [step_webhook_nonmessage cfg s b hm] at h
      exact Or.inl h
  | timerFire u =>
    by_cases hp : s.notificationTimer = some u
    · by_cases he : shouldSendNotification cfg s = true
      · exact Or.inr ⟨u, rfl, hp, he⟩
      · rw [Bool.not_eq_true] at he
        rw [step_fire_ineligible cfg s u hp he] at h
        exact Or.inl h
    · rw [step_fire_nonpending cfg s u hp] at h
      exact Or.inl h

/-- A step never decreases the timer-identifier counter. -/
lemma step_nextTimerId_mono (s : SessionState) (e : Event) :
    s.nextTimerId ≤ (step cfg s e).nextTimerId := by
  cases e with
  | output c =>
    by_cases hb : containsInterruptText c = true
    · by_cases hs : s.currentState = CState.WORKING
      · rw [step_output_busy_working cfg s c hb hs]
      · rw [step_output_busy cfg s c hb hs]
    · rw [Bool.not_eq_true] at hb
      by_cases hs : s.currentState = CState.WORKING
      · by_cases ht : s.notificationTimer = none
        · rw [step_output_waiting_arm cfg s c hb hs ht]
          exact Nat.le_succ _
        · obtain ⟨u, hu⟩ := Option.ne_none_iff_exists'.mp ht
          rw [step_output_waiting_noarm cfg s c u hb hs hu]
      · rw [step_output_nonbusy_other cfg s c hb hs]
  | input d => rw [step_input cfg s d]
  | webhook b =>
    by_cases hm : isUserMessage b = true
    · obtain ⟨ev, txt, h1, h2, h3, h4, h5, h6⟩ := isUserMessage_elim b hm
      rw [step_webhook_message cfg s b ev txt h1 h2 h3 h4 h5 h6]
    · rw [Bool.not_eq_true] at hm
      rw [step_webhook_nonmessage cfg s b hm]
  | timerFire u =>
    by_cases hp : s.notificationTimer = some u
    · by_cases he : shouldSendNotification cfg s = true
      · rw [step_fire_eligible cfg s u hp he]
        exact Nat.le_of_eq
          ((sendSlack_frame cfg { s with notificationTimer := none }).2.2.2.2.1).symm
      · rw [Bool.not_eq_true] at he
        rw [step_fire_ineligible cfg s u hp he]
    · rw [step_fire_nonpending cfg s u hp]

/-- A pending timer can only exist in the WAITING state; the property is
preserved by every step. -/
lemma step_preserves_pendingWaiting (s : SessionState) (e : Event)
    (ih : s.notificationTimer ≠ none → s.currentState = CState.WAITING) :
    (step cfg s e).notificationTimer ≠ none →
      (step cfg s e).currentState = CState.WAITING := by
  intro hpend
  obtain ⟨t, hpt⟩ := Option.ne_none_iff_exists'.mp hpend
  rcases step_timer_some cfg s e t hpt with hold | ⟨c, he, hb, htn, hst, htt, heq⟩
  · have hw : s.currentState = CState.WAITING := ih (by rw [hold]; exact Option.some_ne_none t)
    cases e with
    | output c =>
      by_cases hb : containsInterruptText c = true
      · by_cases hs : s.currentState = CState.WORKING
        · rw [hw] at hs; exact absurd hs (by decide)
        · rw [step_output_busy cfg s c hb hs] at hpt
          simp at hpt
      · rw [Bool.not_eq_true] at hb
        by_cases hs : s.currentState = CState.WORKING
        · rw [hw] at hs; exact absurd hs (by decide)
        · rw [step_output_nonbusy_other cfg s c hb hs]
          exact hw
    | input d =>
      rw [step_input cfg s d] at hpt
      simp at hpt
    | webhook b =>
      by_cases hm : isUserMessage b = true
      · obtain ⟨ev, txt, h1, h2, h3, h4, h5, h6⟩ := isUserMessage_elim b hm
        rw [step_webhook_message cfg s b ev txt h1 h2 h3 h4 h5 h6] at hpt
        simp at hpt
      · rw [Bool.not_eq_true] at hm
        rw [step_webhook_nonmessage cfg s b hm]
        exact hw
    | timerFire u =>
      by_cases hp : s.notificationTimer = some u
      · by_cases he : shouldSendNotification cfg s = true
        · rw [step_fire_eligible cfg s u hp he] at hpt
          simp only at hpt
          rw [(sendSlack_frame cfg { s with notificationTimer := none }).2.2.2.1] at hpt
          simp at hpt
        · rw [Bool.not_eq_true] at he
          rw [step_fire_ineligible cfg s u hp he] at hpt
          simp at hpt
      · rw [step_fire_nonpending cfg s u hp]
        exact hw
  · rw [heq]

/-- A pending timer identifier is always below the counter; preserved by
every step. -/
lemma step_preserves_pendingLt (s : SessionState) (e : Event)
    (ih : ∀ u, s.notificationTimer = some u → u < s.nextTimerId) :
    ∀ u, (step cfg s e).notificationTimer = some u → u < (step cfg s e).nextTimerId := by
  intro u hu
  rcases step_timer_some cfg s e u hu with hold | ⟨c, he, hb, htn, hst, htt, heq⟩
  · exact lt_of_lt_of_le (ih u hold) (step_nextTimerId_mono cfg s e)
  · rw [heq]
    simp only [htt]
    exact Nat.lt_succ_self _

/-- Both run-level invariants at once, over any event list from the
initial state. -/
lemma run_invariants (es : List Event) :
    ((run cfg es).notificationTimer ≠ none → (run cfg es).currentState = CState.WAITING) ∧
    (∀ u, (run cfg es).notificationTimer = some u → u < (run cfg es).nextTimerId) := by
  have main : ∀ (l : List Event) (s : SessionState),
      (s.notificationTimer ≠ none → s.currentState = CState.WAITING) →
      (∀ u, s.notificationTimer = some u → u < s.nextTimerId) →
      ((runFrom cfg s l).notificationTimer ≠ none →
        (runFrom cfg s l).currentState = CState.WAITING) ∧
      (∀ u, (runFrom cfg s l).notificationTimer = some u → u < (runFrom cfg s l).nextTimerId) := by
    intro l
    induction l with
    | nil => intro s h1 h2; exact ⟨h1, h2⟩
    | cons e rest ih =>
      intro s h1 h2
      rw [runFrom_cons]
      exact ih (step cfg s e) (step_preserves_pendingWaiting cfg s e h1)
        (step_preserves_pendingLt cfg s e h2)
  exact main es initState (by intro h; exact absurd rfl h) (by intro u hu; cases hu)

/-- Once an identifier is both not pending and below the counter, it can
never become pending again: cancellation is permanent. -/
lemma step_dead_timer (s : SessionState) (e : Event) (t : Nat)
    (h1 : s.notificationTimer ≠ some t) (h2 : t < s.nextTimerId) :
    (step cfg s e).notificationTimer ≠ some t ∧ t < (step cfg s e).nextTimerId := by
  constructor
  · intro hcon
    rcases step_timer_some cfg s e t hcon with hold | ⟨c, he, hb, htn, hst, htt, heq⟩
    · exact h1 hold
    · rw [htt] at h2; exact absurd h2 (lt_irrefl _)
  · exact lt_of_lt_of_le h2 (step_nextTimerId_mono cfg s e)

/-- Permanence of cancellation over any continuation of the execution. -/
lemma runFrom_dead_timer (es : List Event) (s : SessionState) (t : Nat)
    (h1 : s.notificationTimer ≠ some t) (h2 : t < s.nextTimerId) :
    (runFrom cfg s es).notificationTimer ≠ some t ∧ t < (runFrom cfg s es).nextTimerId := by
  induction es generalizing s with
  | nil => exact ⟨h1, h2⟩
  | cons e rest ih =>
    rw [runFrom_cons]
    obtain ⟨d1, d2⟩ := step_dead_timer cfg s e t h1 h2
    exact ih (step cfg s e) d1 d2

/-- Any pending timer was armed by an idle chunk on a WORKING to WAITING
edge, and has been pending continuously ever since. -/
lemma arm_decomposition (es : List Event) :
    ∀ t, (run cfg es).notificationTimer = some t →
      ∃ p0 c p1, es = p0 ++ Event.output c :: p1 ∧
        containsInterruptText c = false ∧
        (run cfg p0).currentState = CState.WORKING ∧
        (run cfg (p0 ++ [Event.output c])).currentState = CState.WAITING ∧
        (run cfg (p0 ++ [Event.output c])).notificationTimer = some t ∧
        ∀ k, k ≤ p1.length →
          (run cfg (p0 ++ Event.output c :: p1.take k)).notificationTimer = some t := by
  induction es using List.reverseRecOn with
  | nil =>
    intro t h
    simp [run, runFrom, initState] at h
  | append_singleton es e ih =>
    intro t h
    rw [run_append] at h
    rcases step_timer_some cfg (run cfg es) e t h with hold | ⟨c, he, hb, htn, hst, htt, heq⟩
    · obtain ⟨p0, c, p1, hdec, hbc, hwork, hwait, htim, hcont⟩ := ih t hold
      refine ⟨p0, c, p1 ++ [e], ?_, hbc, hwork, hwait, htim, ?_⟩
      · rw [hdec]; simp
      · intro k hk
        rw [List.length_append, List.length_singleton] at hk
        rcases Nat.eq_or_lt_of_le hk with heqk | hltk
        · rw [heqk, List.take_of_length_le (by simp)]
          have hlist : p0 ++ Event.output c :: (p1 ++ [e]) = (es ++ [e]) := by
            rw [hdec]; simp
          rw [hlist, run_append]
          exact h
        · have hk' : k ≤ p1.length := Nat.lt_succ_iff.mp hltk
          rw [List.take_append_of_le_length hk']
          exact hcont k hk'
    · subst he
      refine ⟨es, c, [], rfl, hb, hst, ?_, ?_, ?_⟩
      · rw [run_append, heq]
      · rw [run_append]; exact h
      · intro k hk
        have hk0 : k = 0 := Nat.le_zero.mp hk
        subst hk0
        rw [List.take_zero, run_append]
        exact h

/-- Any execution ending in NOTIFIED contains the expiry of a timer that
was pending at that moment, was armed on a WORKING to WAITING output edge,
and stayed pending from arming to expiry; the expiry step is the one that
entered NOTIFIED. -/
lemma notified_decomposition (es : List Event) :
    (run cfg es).currentState = CState.NOTIFIED →
      ∃ p t q, es = p ++ Event.timerFire t :: q ∧
        (run cfg p).currentState = CState.WAITING ∧
        (run cfg p).notificationTimer = some t ∧
        (run cfg (p ++ [Event.timerFire t])).currentState = CState.NOTIFIED ∧
        ∃ p0 c p1, p = p0 ++ Event.output c :: p1 ∧
          containsInterruptText c = false ∧
          (run cfg p0).currentState = CState.WORKING ∧
          (run cfg (p0 ++ [Event.output c])).currentState = CState.WAITING ∧
          (run cfg (p0 ++ [Event.output c])).notificationTimer = some t ∧
          ∀ k, k ≤ p1.length →
            (run cfg (p0 ++ Event.output c :: p1.take k)).notificationTimer = some t := by
  induction es using List.reverseRecOn with
  | nil =>
    intro h
    simp [run, runFrom, initState] at h
  | append_singleton es e ih =>
    intro h
    rw [run_append] at h
    rcases step_notified cfg (run cfg es) e h with hold | ⟨t, he, hpend, helig⟩
    · obtain ⟨p, t, q, hdec, hwait, htim, hnot, harm⟩ := ih hold
      refine ⟨p, t, q ++ [e], ?_, hwait, htim, hnot, harm⟩
      rw [hdec]; simp
    · subst he
      refine ⟨es, t, [], rfl, ?_, hpend, ?_, ?_⟩
      · exact (run_invariants cfg es).1 (by rw [hpend]; exact Option.some_ne_none t)
      · rw [run_append]; exact h
      · exact arm_decomposition cfg es t hpend

/-- The eligibility decision spelled out as the four conditions. -/
lemma shouldSend_eq_true_iff (s : SessionState) :
    shouldSendNotification cfg s = true ↔
      (s.userHasEngaged = true ∧ s.notificationSent = false ∧
        s.isClaudeWorking = false ∧ cfg.notificationsDisabled = false) := by
  simp only [shouldSendNotification, Bool.and_eq_true, Bool.not_eq_true']
  tauto

/-- When eligibility fails, getSkipReason names a condition that indeed
fails; the four reason strings are pairwise distinct. -/
lemma getSkipReason_names_failing (s : SessionState)
    (h : shouldSendNotification cfg s = false) :
    (getSkipReason cfg s = "user_not_engaged" ∧ s.userHasEngaged = false) ∨
    (getSkipReason cfg s = "notification_already_sent" ∧ s.notificationSent = true) ∨
    (getSkipReason cfg s = "claude_still_working" ∧ s.isClaudeWorking = true) ∨
    (getSkipReason cfg s = "notifications_disabled" ∧ cfg.notificationsDisabled = true) := by
  unfold shouldSendNotification at h
  unfold getSkipReason
  cases hu : s.userHasEngaged <;> cases hn : s.notificationSent <;>
    cases hw : s.isClaudeWorking <;> cases hd : cfg.notificationsDisabled <;>
      simp_all

/-- No event ever resets engagement. -/
lemma step_engaged_mono (s : SessionState) (e : Event)
    (h : s.userHasEngaged = true) : (step cfg s e).userHasEngaged = true := by
  cases e with
  | output c =>
    by_cases hb : containsInterruptText c = true
    · by_cases hs : s.currentState = CState.WORKING
      · rw [step_output_busy_working cfg s c hb hs]; exact h
      · rw [step_output_busy cfg s c hb hs]; exact h
    · rw [Bool.not_eq_true] at hb
      by_cases hs : s.currentState = CState.WORKING
      · by_cases ht : s.notificationTimer = none
        · rw [step_output_waiting_arm cfg s c hb hs ht]; exact h
        · obtain ⟨u, hu⟩ := Option.ne_none_iff_exists'.mp ht
          rw [step_output_waiting_noarm cfg s c u hb hs hu]; exact h
      · rw [step_output_nonbusy_other cfg s c hb hs]; exact h
  | input d =>
    rw [step_input cfg s d]
    simp [h]
  | webhook b =>
    by_cases hm : isUserMessage b = true
    · obtain ⟨ev, txt, h1, h2, h3, h4, h5, h6⟩ := isUserMessage_elim b hm
      rw [step_webhook_message cfg s b ev txt h1 h2 h3 h4 h5 h6]
    · rw [Bool.not_eq_true] at hm
      rw [step_webhook_nonmessage cfg s b hm]; exact h
  | timerFire u =>
    by_cases hp : s.notificationTimer = some u
    · by_cases he : shouldSendNotification cfg s = true
      · rw [step_fire_eligible cfg s u hp he]
        simp only
        rw [(sendSlack_frame cfg { s with notificationTimer := none }).1]
        exact h
      · rw [Bool.not_eq_true] at he
        rw [step_fire_ineligible cfg s u hp he]; exact h
    · rw [step_fire_nonpending cfg s u hp]; exact h

/-- Engagement persists over any continuation of the execution. -/
lemma runFrom_engaged_mono (es : List Event) (s : SessionState)
    (h : s.userHasEngaged = true) : (runFrom cfg s es).userHasEngaged = true := by
  induction es generalizing s with
  | nil => exact h
  | cons e rest ih =>
    rw [runFrom_cons]
    exact ih (step cfg s e) (step_engaged_mono cfg s e h)

end Lemmas

section Claims

/-- C1: when the notification timer expires, an alert is sent if and only
if all four conditions hold at that moment: userHasEngaged is true,
notificationSent is false, isClaudeWorking is false, and notifications are
not globally disabled; when any condition fails no alert is posted and
getSkipReason names a condition that indeed fails.  The configuration
hypothesis records the startup validation: a webhook URL is present
whenever notifications are enabled. -/
theorem C1_timer_expiry_alert_iff (cfg : Config) (s : SessionState) (t : Nat)
    (hp : s.notificationTimer = some t)
    (hv : cfg.notificationsDisabled = false → cfg.slackWebhookUrl ≠ none) :
    ((step cfg s (Event.timerFire t)).alerts.length = s.alerts.length + 1 ↔
      (s.userHasEngaged = true ∧ s.notificationSent = false ∧
        s.isClaudeWorking = false ∧ cfg.notificationsDisabled = false)) ∧
    (¬(s.userHasEngaged = true ∧ s.notificationSent = false ∧
        s.isClaudeWorking = false ∧ cfg.notificationsDisabled = false) →
      (step cfg s (Event.timerFire t)).alerts = s.alerts ∧
      ((getSkipReason cfg s = "user_not_engaged" ∧ s.userHasEngaged = false) ∨
       (getSkipReason cfg s = "notification_already_sent" ∧ s.notificationSent = true) ∨
       (getSkipReason cfg s = "claude_still_working" ∧ s.isClaudeWorking = true) ∨
       (getSkipReason cfg s = "notifications_disabled" ∧ cfg.notificationsDisabled = true))) := by
  by_cases he : shouldSendNotification cfg s = true
  · have hconds := (shouldSend_eq_true_iff cfg s).mp he
    have hd : cfg.notificationsDisabled = false := hconds.2.2.2
    have hu : cfg.slackWebhookUrl ≠ none := hv hd
    have hsend :
        sendSlackNotification cfg { s with notificationTimer := none } =
          { s with notificationTimer := none
                   alerts := s.alerts ++ [extractTask s.claudeDataChunks] } :=
      sendSlack_valid cfg { s with notificationTimer := none } hd hu
    rw [step_fire_eligible cfg s t hp he]
    constructor
    · rw [hsend]
      simp [hconds]
    · intro hcon
      exact absurd hconds hcon
  · rw [Bool.not_eq_true] at he
    have hnconds : ¬(s.userHasEngaged = true ∧ s.notificationSent = false ∧
        s.isClaudeWorking = false ∧ cfg.notificationsDisabled = false) := by
      intro hc
      rw [(shouldSend_eq_true_iff cfg s).mpr hc] at he
      cases he
    rw [step_fire_ineligible cfg s t hp he]
    refine ⟨?_, fun _ => ⟨rfl, getSkipReason_names_failing cfg s he⟩⟩
    simp [hnconds]

/-- C1 witness: a live configuration and an engaged WAITING state with
timer 0 pending; the theorem applies and its hypotheses hold there. -/
theorem C1_timer_expiry_alert_iff_witness :
    sAlertReady.notificationTimer = some 0 ∧
    (cfgLive.notificationsDisabled = false → cfgLive.slackWebhookUrl ≠ none) ∧
    (((step cfgLive sAlertReady (Event.timerFire 0)).alerts.length =
        sAlertReady.alerts.length + 1 ↔
      (sAlertReady.userHasEngaged = true ∧ sAlertReady.notificationSent = false ∧
        sAlertReady.isClaudeWorking = false ∧ cfgLive.notificationsDisabled = false)) ∧
    (¬(sAlertReady.userHasEngaged = true ∧ sAlertReady.notificationSent = false ∧
        sAlertReady.isClaudeWorking = false ∧ cfgLive.notificationsDisabled = false) →
      (step cfgLive sAlertReady (Event.timerFire 0)).alerts = sAlertReady.alerts ∧
      ((getSkipReason cfgLive sAlertReady = "user_not_engaged" ∧
          sAlertReady.userHasEngaged = false) ∨
       (getSkipReason cfgLive sAlertReady = "notification_already_sent" ∧
          sAlertReady.notificationSent = true) ∨
       (getSkipReason cfgLive sAlertReady = "claude_still_working" ∧
          sAlertReady.isClaudeWorking = true) ∨
       (getSkipReason cfgLive sAlertReady = "notifications_disabled" ∧
          cfgLive.notificationsDisabled = true)))) :=
  ⟨rfl, by decide, C1_timer_expiry_alert_iff cfgLive sAlertReady 0 rfl (by decide)⟩

/-- C2: every execution that reaches NOTIFIED contains an expiry event of
a timer pending at that moment, the NOTIFIED entry happens exactly at that
expiry step, the state just before it is WAITING, the timer was armed by
an idle output chunk on a WORKING to WAITING edge, and the timer stayed
pending continuously from arming to expiry (it was never cancelled). -/
theorem C2_notified_only_via_armed_timer (cfg : Config) (es : List Event)
    (h : (run cfg es).currentState = CState.NOTIFIED) :
    ∃ p t q, es = p ++ Event.timerFire t :: q ∧
      (run cfg p).currentState = CState.WAITING ∧
      (run cfg p).notificationTimer = some t ∧
      (run cfg (p ++ [Event.timerFire t])).currentState = CState.NOTIFIED ∧
      ∃ p0 c p1, p = p0 ++ Event.output c :: p1 ∧
        containsInterruptText c = false ∧
        (run cfg p0).currentState = CState.WORKING ∧
        (run cfg (p0 ++ [Event.output c])).currentState = CState.WAITING ∧
        (run cfg (p0 ++ [Event.output c])).notificationTimer = some t ∧
        ∀ k, k ≤ p1.length →
          (run cfg (p0 ++ Event.output c :: p1.take k)).notificationTimer = some t :=
  notified_decomposition cfg es h

/-- C2 witness: the four-event execution engage, busy chunk, idle chunk,
expiry ends in NOTIFIED, so the decomposition applies to it. -/
theorem C2_notified_only_via_armed_timer_witness :
    (run cfgLive notifyTrace).currentState = CState.NOTIFIED ∧
    (∃ p t q, notifyTrace = p ++ Event.timerFire t :: q ∧
      (run cfgLive p).currentState = CState.WAITING ∧
      (run cfgLive p).notificationTimer = some t ∧
      (run cfgLive (p ++ [Event.timerFire t])).currentState = CState.NOTIFIED ∧
      ∃ p0 c p1, p = p0 ++ Event.output c :: p1 ∧
        containsInterruptText c = false ∧
        (run cfgLive p0).currentState = CState.WORKING ∧
        (run cfgLive (p0 ++ [Event.output c])).currentState = CState.WAITING ∧
        (run cfgLive (p0 ++ [Event.output c])).notificationTimer = some t ∧
        ∀ k, k ≤ p1.length →
          (run cfgLive (p0 ++ Event.output c :: p1.take k)).notificationTimer = some t) :=
  ⟨by decide, C2_notified_only_via_armed_timer cfgLive notifyTrace (by decide)⟩

/-- C7: the extractor evaluated at the buffer of the specified scenario.
The source splits on the two-code-point sequence TASK_BOUNDARY (U+00E2
U+2014, a mojibake rendering of the intended bullet glyph), which does not
occur in the buffer, so the split keeps the whole buffer and the summary
retains both bullet sections instead of only the last one. -/
theorem C7_extractor_scenario :
    extractTask ["●Step1\nwork\n●Step2\nmore\n✻ esc to interrupt)\nfooter"] =
      "●Step1\nwork\n●Step2\nmore" ∧
    "●Step1\nwork\n●Step2\nmore" ≠ "Step2\nmore" ∧
    strIncludes "●Step1\nwork\n●Step2\nmore\n✻ esc to interrupt)\nfooter" TASK_BOUNDARY
      = false := by
  refine ⟨by decide, by decide, by decide⟩

/-- C9: with notifications enabled and the webhook URL or the ngrok domain
missing, startup prints the explanatory message and exits with code 1; the
subprocess spawn action never occurs. -/
theorem C9_config_failfast (cfg : Config)
    (hEnabled : cfg.notificationsDisabled = false)
    (hMissing : cfg.slackWebhookUrl = none ∨ cfg.ngrokDomain = none) :
    startupActions cfg = [Action.printError CONFIG_ERROR_MESSAGE, Action.exitProcess 1] ∧
    Action.spawnClaude ∉ startupActions cfg ∧ (1 : Nat) ≠ 0 := by
  have hact : startupActions cfg =
      [Action.printError CONFIG_ERROR_MESSAGE, Action.exitProcess 1] := by
    rw [startupActions, if_pos ⟨hEnabled, hMissing⟩]
  refine ⟨hact, ?_, by decide⟩
  rw [hact]
  decide

/-- C9 witness: a configuration with notifications enabled and no webhook
URL set. -/
theorem C9_config_failfast_witness :
    cfgNoWebhook.notificationsDisabled = false ∧
    (cfgNoWebhook.slackWebhookUrl = none ∨ cfgNoWebhook.ngrokDomain = none) ∧
    (startupActions cfgNoWebhook =
        [Action.printError CONFIG_ERROR_MESSAGE, Action.exitProcess 1] ∧
      Action.spawnClaude ∉ startupActions cfgNoWebhook ∧ (1 : Nat) ≠ 0) :=
  ⟨rfl, Or.inl rfl, C9_config_failfast cfgNoWebhook rfl (Or.inl rfl)⟩

/-- C10: a webhook body that is not a user text message (wrong type tag,
missing event, empty or absent text, or a bot identifier present) leaves
the entire session state unchanged: nothing is written to the subprocess,
no timer is cancelled, and every flag and the state enum keep their
values. -/
theorem C10_nonmessage_webhook_frame (cfg : Config) (s : SessionState)
    (b : WebhookBody) (h : isUserMessage b = false) :
    step cfg s (Event.webhook b) = s :=
  step_webhook_nonmessage cfg s b h

/-- C10 witness: a bot-authored message against the engaged WAITING
state. -/
theorem C10_nonmessage_webhook_frame_witness :
    isUserMessage botMsg = false ∧
    step cfgLive sAlertReady (Event.webhook botMsg) = sAlertReady :=
  ⟨by decide, C10_nonmessage_webhook_frame cfgLive sAlertReady botMsg (by decide)⟩

/-- C3 counterexample: after an execution whose first episode alerts, a
busy chunk re-enters WORKING and an idle chunk performs a fresh WORKING to
WAITING edge with no intervening user input; the new episode has produced
no alert, yet notificationSent is still true, contradicting the claim that
it is false after a fresh edge. -/
theorem C3_counterexample :
    epTrace = epTracePre ++ [Event.output "done2"] ∧
    (run cfgLive epTracePre).currentState = CState.WORKING ∧
    (run cfgLive epTrace).currentState = CState.WAITING ∧
    (run cfgLive epTrace).alerts.length = (run cfgLive epTracePre).alerts.length ∧
    (run cfgLive epTrace).notificationSent = true := by
  refine ⟨rfl, by decide, by decide, by decide, by decide⟩

/-- C3 amended: notificationSent is reset to false on every local
user-input event and on every bridge-injected user message; it becomes
true exactly when a pending timer expires eligibly; output events,
including the WORKING to WAITING edge that starts a fresh episode, never
change it, so it can remain true into a new episode when no input occurred
since the previous alert. -/
theorem C3_notificationSent_characterization (cfg : Config) (s : SessionState) :
    (∀ d, (step cfg s (Event.input d)).notificationSent = false) ∧
    (∀ b, isUserMessage b = true →
      (step cfg s (Event.webhook b)).notificationSent = false) ∧
    (∀ b, isUserMessage b = false →
      (step cfg s (Event.webhook b)).notificationSent = s.notificationSent) ∧
    (∀ c, (step cfg s (Event.output c)).notificationSent = s.notificationSent) ∧
    (∀ t, s.notificationTimer = some t →
      (step cfg s (Event.timerFire t)).notificationSent =
        (s.notificationSent || shouldSendNotification cfg s)) ∧
    (∀ t, s.notificationTimer ≠ some t →
      (step cfg s (Event.timerFire t)).notificationSent = s.notificationSent) := by
  refine ⟨?_, ?_, ?_, ?_, ?_, ?_⟩
  · intro d
    rw [step_input cfg s d]
  · intro b hm
    obtain ⟨ev, txt, h1, h2, h3, h4, h5, h6⟩ := isUserMessage_elim b hm
    rw [step_webhook_message cfg s b ev txt h1 h2 h3 h4 h5 h6]
  · intro b hm
    rw [step_webhook_nonmessage cfg s b hm]
  · intro c
    by_cases hb : containsInterruptText c = true
    · by_cases hs : s.currentState = CState.WORKING
      · rw [step_output_busy_working cfg s c hb hs]
      · rw [step_output_busy cfg s c hb hs]
    · rw [Bool.not_eq_true] at hb
      by_cases hs : s.currentState = CState.WORKING
      · by_cases ht : s.notificationTimer = none
        · rw [step_output_waiting_arm cfg s c hb hs ht]
        · obtain ⟨u, hu⟩ := Option.ne_none_iff_exists'.mp ht
          rw [step_output_waiting_noarm cfg s c u hb hs hu]
      · rw [step_output_nonbusy_other cfg s c hb hs]
  · intro t hp
    by_cases he : shouldSendNotification cfg s = true
    · rw [step_fire_eligible cfg s t hp he, he, Bool.or_true]
    · rw [Bool.not_eq_true] at he
      rw [step_fire_ineligible cfg s t hp he, he, Bool.or_false]
  · intro t hp
    rw [step_fire_nonpending cfg s t hp]

/-- C3 witness: the characterization applied to the engaged WAITING state
with timer 0 pending and the live configuration. -/
theorem C3_notificationSent_characterization_witness :
    (step cfgLive sAlertReady (Event.input "ok\n")).notificationSent = false ∧
    (isUserMessage bridgeMsg = true ∧
      (step cfgLive sAlertReady (Event.webhook bridgeMsg)).notificationSent = false) ∧
    (sAlertReady.notificationTimer = some 0 ∧
      (step cfgLive sAlertReady (Event.timerFire 0)).notificationSent =
        (sAlertReady.notificationSent || shouldSendNotification cfgLive sAlertReady)) :=
  ⟨(C3_notificationSent_characterization cfgLive sAlertReady).1 "ok\n",
   ⟨by decide,
    (C3_notificationSent_characterization cfgLive sAlertReady).2.1 bridgeMsg (by decide)⟩,
   ⟨rfl,
    (C3_notificationSent_characterization cfgLive sAlertReady).2.2.2.2.1 0 rfl⟩⟩

/-- C4: userHasEngaged is monotone: it starts false, no event of any kind
resets it, a local input batch containing a carriage-return or newline
byte sets it, a bridge-delivered user message (always injected with a
trailing newline) sets it, and once true it persists over any continuation
of the execution. -/
theorem C4_userHasEngaged_monotone (cfg : Config) :
    initState.userHasEngaged = false ∧
    (∀ s e, s.userHasEngaged = true → (step cfg s e).userHasEngaged = true) ∧
    (∀ s d, (strIncludes d "\r" || strIncludes d "\n") = true →
      (step cfg s (Event.input d)).userHasEngaged = true) ∧
    (∀ s b, isUserMessage b = true →
      (step cfg s (Event.webhook b)).userHasEngaged = true) ∧
    (∀ s es, s.userHasEngaged = true → (runFrom cfg s es).userHasEngaged = true) := by
  refine ⟨rfl, fun s e h => step_engaged_mono cfg s e h, ?_, ?_,
    fun s es h => runFrom_engaged_mono cfg es s h⟩
  · intro s d hE
    rw [step_input cfg s d]
    simp [hE]
  · intro s b hm
    obtain ⟨ev, txt, h1, h2, h3, h4, h5, h6⟩ := isUserMessage_elim b hm
    rw [step_webhook_message cfg s b ev txt h1 h2 h3 h4 h5 h6]

/-- C4 witness: engagement set by a newline batch and by a bridge message
from the initial state, and persisting over a continuation from the
engaged state. -/
theorem C4_userHasEngaged_monotone_witness :
    initState.userHasEngaged = false ∧
    ((strIncludes "hi\n" "\r" || strIncludes "hi\n" "\n") = true ∧
      (step cfgLive initState (Event.input "hi\n")).userHasEngaged = true) ∧
    (isUserMessage bridgeMsg = true ∧
      (step cfgLive initState (Event.webhook bridgeMsg)).userHasEngaged = true) ∧
    (sAlertReady.userHasEngaged = true ∧
      (runFrom cfgLive sAlertReady
        [Event.output "done2", Event.timerFire 0]).userHasEngaged = true) :=
  ⟨(C4_userHasEngaged_monotone cfgLive).1,
   ⟨by decide,
    (C4_userHasEngaged_monotone cfgLive).2.2.1 initState "hi\n" (by decide)⟩,
   ⟨by decide,
    (C4_userHasEngaged_monotone cfgLive).2.2.2.1 initState bridgeMsg (by decide)⟩,
   ⟨rfl,
    (C4_userHasEngaged_monotone cfgLive).2.2.2.2 sAlertReady
      [Event.output "done2", Event.timerFire 0] rfl⟩⟩

/-- C5 counterexample: a buffered output chunk followed by a
bridge-delivered message; the message is processed (its text plus a
newline is written to the subprocess), yet the output buffer still holds
the chunk, contradicting the claim that it is empty afterwards. -/
theorem C5_counterexample :
    (run cfgLive [Event.output "x", Event.webhook bridgeMsg]).claudeWrites =
      ["hello\n"] ∧
    (run cfgLive [Event.output "x", Event.webhook bridgeMsg]).claudeDataChunks =
      ["x"] ∧
    (["x"] : List String) ≠ [] := by
  refine ⟨by decide, by decide, by decide⟩

/-- C5 amended: every local input batch containing a carriage-return or
newline byte clears the output buffer, and a bridge-delivered user message
goes through an inlined copy of the input handling that forwards the text
with a trailing newline, cancels the timer, resets notificationSent and
sets engagement — but it never clears the output buffer (no webhook body
changes claudeDataChunks). -/
theorem C5_buffer_clearing (cfg : Config) (s : SessionState) :
    (∀ d, (strIncludes d "\r" || strIncludes d "\n") = true →
      (step cfg s (Event.input d)).claudeDataChunks = []) ∧
    (∀ b, (step cfg s (Event.webhook b)).claudeDataChunks = s.claudeDataChunks) ∧
    (∀ b ev txt, b.type = "event_callback" → b.event = some ev → ev.type = "message" →
      ev.text = some txt → txt ≠ "" → truthyText ev.bot_id = false →
      (step cfg s (Event.webhook b)).claudeWrites = s.claudeWrites ++ [txt ++ "\n"] ∧
      (step cfg s (Event.webhook b)).notificationTimer = none ∧
      (step cfg s (Event.webhook b)).notificationSent = false ∧
      (step cfg s (Event.webhook b)).userHasEngaged = true) := by
  refine ⟨?_, ?_, ?_⟩
  · intro d hE
    rw [step_input cfg s d]
    simp [hE]
  · intro b
    by_cases hm : isUserMessage b = true
    · obtain ⟨ev, txt, h1, h2, h3, h4, h5, h6⟩ := isUserMessage_elim b hm
      rw [step_webhook_message cfg s b ev txt h1 h2 h3 h4 h5 h6]
    · rw [Bool.not_eq_true] at hm
      rw [step_webhook_nonmessage cfg s b hm]
  · intro b ev txt h1 h2 h3 h4 h5 h6
    rw [step_webhook_message cfg s b ev txt h1 h2 h3 h4 h5 h6]
    exact ⟨rfl, rfl, rfl, rfl⟩

/-- C5 witness: the amended behaviour at the engaged WAITING state: a
newline batch clears the buffer, the bridge message leaves it untouched
while resetting the timer and flags. -/
theorem C5_buffer_clearing_witness :
    ((strIncludes "go\n" "\r" || strIncludes "go\n" "\n") = true ∧
      (step cfgLive sAlertReady (Event.input "go\n")).claudeDataChunks = []) ∧
    (step cfgLive sAlertReady (Event.webhook bridgeMsg)).claudeDataChunks =
      sAlertReady.claudeDataChunks ∧
    (bridgeMsg.type = "event_callback" ∧
      (step cfgLive sAlertReady (Event.webhook bridgeMsg)).claudeWrites =
        sAlertReady.claudeWrites ++ ["hello" ++ "\n"] ∧
      (step cfgLive sAlertReady (Event.webhook bridgeMsg)).notificationTimer = none ∧
      (step cfgLive sAlertReady (Event.webhook bridgeMsg)).notificationSent = false ∧
      (step cfgLive sAlertReady (Event.webhook bridgeMsg)).userHasEngaged = true) :=
  ⟨⟨by decide, (C5_buffer_clearing cfgLive sAlertReady).1 "go\n" (by decide)⟩,
   (C5_buffer_clearing cfgLive sAlertReady).2.1 bridgeMsg,
   ⟨rfl,
    (C5_buffer_clearing cfgLive sAlertReady).2.2 bridgeMsg
      { type := "message", text := some "hello", bot_id := none } "hello"
      rfl rfl rfl rfl (by decide) rfl⟩⟩

/-- C6: if a local input event is processed while a timer is pending, that
timer's identifier is never pending again along any continuation, and its
expiry event is the identity on the state: the callback never runs, no
eligibility check, no alert, no NOTIFIED transition for that episode. -/
theorem C6_input_before_expiry_cancels (cfg : Config) (es0 : List Event) (d : String)
    (t : Nat) (es1 : List Event)
    (hp : (run cfg es0).notificationTimer = some t) :
    (runFrom cfg (step cfg (run cfg es0) (Event.input d)) es1).notificationTimer ≠
      some t ∧
    step cfg (runFrom cfg (step cfg (run cfg es0) (Event.input d)) es1)
        (Event.timerFire t) =
      runFrom cfg (step cfg (run cfg es0) (Event.input d)) es1 := by
  have hlt : t < (run cfg es0).nextTimerId := (run_invariants cfg es0).2 t hp
  have h1 : (step cfg (run cfg es0) (Event.input d)).notificationTimer ≠ some t := by
    rw [step_input]
    simp
  have h2 : t < (step cfg (run cfg es0) (Event.input d)).nextTimerId := by
    rw [step_input]
    exact hlt
  obtain ⟨d1, _⟩ := runFrom_dead_timer cfg es1 (step cfg (run cfg es0) (Event.input d)) t h1 h2
  exact ⟨d1, step_fire_nonpending cfg _ t d1⟩

/-- C6 witness: timer 0 is pending after the arming execution; a keypress
then arrives, late output follows, and the expiry of timer 0 is the
identity. -/
theorem C6_input_before_expiry_cancels_witness :
    (run cfgLive armTrace).notificationTimer = some 0 ∧
    ((runFrom cfgLive (step cfgLive (run cfgLive armTrace) (Event.input "k"))
        [Event.output "late"]).notificationTimer ≠ some 0 ∧
      step cfgLive
          (runFrom cfgLive (step cfgLive (run cfgLive armTrace) (Event.input "k"))
            [Event.output "late"]) (Event.timerFire 0) =
        runFrom cfgLive (step cfgLive (run cfgLive armTrace) (Event.input "k"))
          [Event.output "late"]) :=
  ⟨by decide,
   C6_input_before_expiry_cancels cfgLive armTrace "k" 0 [Event.output "late"] (by decide)⟩

/-- C8: processing any number of output chunks that lack the busy marker
while the state is WAITING or NOTIFIED changes nothing but the output
buffer, which grows by exactly those chunks: the state enum, the flags,
the pending timer handle and the identifier counter, the write log and the
alert log are all unchanged, and no new timer is armed. -/
theorem C8_idle_output_frame (cfg : Config) (s : SessionState) (cs : List String)
    (hb : ∀ c ∈ cs, containsInterruptText c = false)
    (hs : s.currentState = CState.WAITING ∨ s.currentState = CState.NOTIFIED) :
    runFrom cfg s (cs.map Event.output) =
      { s with claudeDataChunks := s.claudeDataChunks ++ cs } := by
  induction cs generalizing s with
  | nil => simp [runFrom]
  | cons c rest ih =>
    have hsw : s.currentState ≠ CState.WORKING := by
      rcases hs with h | h <;> rw [h] <;> decide
    have hc : containsInterruptText c = false := hb c (List.mem_cons_self c rest)
    have hstep : step cfg s (Event.output c) =
        { s with claudeDataChunks := s.claudeDataChunks ++ [c] } :=
      step_output_nonbusy_other cfg s c hc hsw
    rw [List.map_cons, runFrom_cons, hstep,
      ih { s with claudeDataChunks := s.claudeDataChunks ++ [c] }
        (fun x hx => hb x (List.mem_cons_of_mem c hx)) hs]
    simp

/-- C8 witness: two idle chunks against the engaged WAITING state with its
timer pending. -/
theorem C8_idle_output_frame_witness :
    (∀ c ∈ (["more output", "still going"] : List String),
      containsInterruptText c = false) ∧
    (sAlertReady.currentState = CState.WAITING ∨
      sAlertReady.currentState = CState.NOTIFIED) ∧
    runFrom cfgLive sAlertReady
        ((["more output", "still going"] : List String).map Event.output) =
      { sAlertReady with
          claudeDataChunks := sAlertReady.claudeDataChunks ++
            ["more output", "still going"] } :=
  ⟨by decide, Or.inl rfl,
   C8_idle_output_frame cfgLive sAlertReady ["more output", "still going"]
     (by decide) (Or.inl rfl)⟩

end Claims

end ClaudeNotify
